import Mathlib

/-!
Shallow embedding of the Auto-Sync-External-Volumes core, translated from
`crates/sync-backend/src/sync.rs` and `crates/volume-tracker/src/{lib,windows/mount_mgr,windows/wmi}.rs`.

Machine integers (`AtomicU64` counters, `usize` loop variables in release
builds) are modelled as `Nat` with explicit wrapping at 2^64.
-/

/-- 2^64, the modulus of the `u64`/`usize` counters. -/
def U64LIM : Nat := 18446744073709551616

/-- Wrapping 64-bit addition (`fetch_add` on `AtomicU64`). -/
def wadd (a b : Nat) : Nat := (a + b) % U64LIM

/-- Wrapping 64-bit subtraction (`fetch_sub` on `AtomicU64`, wrapping on underflow). -/
def wsub (a b : Nat) : Nat := (a + (U64LIM - b % U64LIM)) % U64LIM

/-- `ProgressTIDSF<AtomicU64>` from sync.rs: total / in_progress / done / skipped / failed. -/
structure TIDSF where
  total : Nat
  in_progress : Nat
  done : Nat
  skipped : Nat
  failed : Nat
deriving DecidableEq, Repr

/-- `GlobalProgress` from sync.rs: one TIDSF tuple for file counts, one for bytes. -/
structure GlobalProgress where
  files : TIDSF
  bytes : TIDSF
deriving DecidableEq, Repr

/-- The all-zero initial `GlobalProgress` (`GlobalProgress::default()`). -/
def GlobalProgress.init : GlobalProgress :=
  { files := ⟨0, 0, 0, 0, 0⟩, bytes := ⟨0, 0, 0, 0, 0⟩ }

/-- Mutable state of `TrackingAsyncWrite` (sync.rs): the wrapped sink and the
callback are external; `fpTotal`/`fpDone` embed the `FileProgress` pair. -/
structure TrackingWrite where
  size : Nat
  fpTotal : Nat
  fpDone : Nat
  failed : Bool
  finalized : Bool
  written : Nat
  lastReported : Nat
deriving DecidableEq, Repr

namespace TrackingWrite

/-- `TrackingAsyncWrite::new`: bumps `files.in_progress` and builds the writer
with a fresh `FileProgress`. -/
def create (size : Nat) (gp : GlobalProgress) : TrackingWrite × GlobalProgress :=
  (⟨size, size, 0, false, false, 0, 0⟩,
   { gp with files := { gp.files with in_progress := wadd gp.files.in_progress 1 } })

/-- `TrackingAsyncWrite::register_fail`. -/
def register_fail (w : TrackingWrite) (gp : GlobalProgress) :
    TrackingWrite × GlobalProgress :=
  match w.failed with
  | true => (w, gp)
  | false =>
    ({ w with failed := true },
     { gp with
        bytes := { gp.bytes with failed := wadd gp.bytes.failed w.size }
        files := { gp.files with
                    in_progress := wsub gp.files.in_progress 1
                    failed := wadd gp.files.failed 1 } })

/-- `TrackingAsyncWrite::increment_bytes`. -/
def increment_bytes (n : Nat) (w : TrackingWrite) (gp : GlobalProgress) :
    TrackingWrite × GlobalProgress :=
  if w.failed then (w, gp)
  else
    let written := w.written + n
    let lastReported :=
      if written - w.lastReported ≥ 65536 then written else w.lastReported
    ({ w with written := written, lastReported := lastReported, fpDone := w.fpDone + n },
     { gp with bytes := { gp.bytes with in_progress := wadd gp.bytes.in_progress n } })

/-- `TrackingAsyncWrite::finalize`: when neither failed nor finalized, first
`register_fail`s on a short write, then (in either case) performs the done
accounting and marks the writer finalized. -/
def finalize (w : TrackingWrite) (gp : GlobalProgress) :
    TrackingWrite × GlobalProgress :=
  match w.failed, w.finalized with
  | false, false =>
    let p := if w.written ≠ w.size then register_fail w gp else (w, gp)
    ({ p.1 with finalized := true },
     { p.2 with
        bytes := { p.2.bytes with
                    done := wadd p.2.bytes.done p.1.written
                    in_progress := wsub p.2.bytes.in_progress p.1.size }
        files := { p.2.files with
                    in_progress := wsub p.2.files.in_progress 1
                    done := wadd p.2.files.done 1 } })
  | _, _ => (w, gp)

/-- `TrackingAsyncWrite::revert_progress`. -/
def revert_progress (w : TrackingWrite) (gp : GlobalProgress) :
    TrackingWrite × GlobalProgress :=
  if w.failed = false ∧ w.finalized = true then
    (w,
     { gp with
        bytes := { gp.bytes with done := wsub gp.bytes.done w.written }
        files := { gp.files with done := wsub gp.files.done 1 } })
  else (w, gp)

end TrackingWrite

/-- One step observed by the `tokio::io::copy` loop inside `copy_file`:
a successful write of `n` bytes, a write/flush error surfaced through the
tracking writer (`poll_write`/`poll_flush` returning `Err`, which calls
`register_fail`), or a read-side error from the source file (which ends the
copy without touching the writer). -/
inductive CopyStep where
  | wok (n : Nat)
  | werr
  | rerr
deriving DecidableEq, Repr

/-- The `tokio::io::copy(&mut src_file, &mut dest_write)` loop: processes
steps until the first error; returns `true` iff the copy returned `Ok`,
in which case the reported byte count is `w.written`. -/
def runCopy : List CopyStep → TrackingWrite → GlobalProgress →
    TrackingWrite × GlobalProgress × Bool
  | [], w, gp => (w, gp, true)
  | .wok n :: rest, w, gp =>
      let (w1, gp1) := TrackingWrite.increment_bytes n w gp
      runCopy rest w1 gp1
  | .werr :: _, w, gp =>
      let (w1, gp1) := TrackingWrite.register_fail w gp
      (w1, gp1, false)
  | .rerr :: _, w, gp => (w, gp, false)

/-- Failures in `copy_file` before the tracking writer exists: semaphore
closed (`acquire` errs), `File::open` failing, `metadata` failing, or
`File::create` failing. -/
inductive PreFail where
  | noFail
  | acquireClosed
  | openErr
  | statErr
  | createErr
deriving DecidableEq, Repr

/-- How one invocation of `copy_file` unfolds against the outside world:
which early failure (if any) occurs, the size `src_file.metadata()` reports,
and the copy-loop steps. -/
structure CopyBehavior where
  pre : PreFail
  size : Nat
  steps : List CopyStep
deriving DecidableEq, Repr

/-- Result of `copy_file` (the `SyncError` cases it can produce, plus `ok`). -/
inductive CopyResult where
  | cancelled
  | copyFailed
  | statFailed
  | shortCopy (copied expected : Nat)
  | ok (written : Nat)
deriving DecidableEq, Repr

/-- `copy_file` from sync.rs, including the drop of the tracking writer at
scope exit (which runs `finalize` via `Drop`). -/
def copyFile (cb : CopyBehavior) (gp : GlobalProgress) :
    GlobalProgress × CopyResult :=
  match cb.pre with
  | .acquireClosed =>
      ({ gp with files := { gp.files with failed := wadd gp.files.failed 1 } },
       .cancelled)
  | .openErr =>
      ({ gp with files := { gp.files with failed := wadd gp.files.failed 1 } },
       .copyFailed)
  | .statErr =>
      ({ gp with files := { gp.files with failed := wadd gp.files.failed 1 } },
       .statFailed)
  | .createErr =>
      ({ gp with files := { gp.files with failed := wadd gp.files.failed 1 } },
       .copyFailed)
  | .noFail =>
      let (w0, gp0) := TrackingWrite.create cb.size gp
      let (w1, gp1, copyOk) := runCopy cb.steps w0 gp0
      if copyOk then
        if w1.written ≠ cb.size then
          let (w2, gp2) := TrackingWrite.revert_progress w1 gp1
          let gp3 :=
            { gp2 with
                files := { gp2.files with failed := wadd gp2.files.failed 1 }
                bytes := { gp2.bytes with failed := wadd gp2.bytes.failed cb.size } }
          let (_, gp4) := TrackingWrite.finalize w2 gp3
          (gp4, .shortCopy w1.written cb.size)
        else
          let (_, gp2) := TrackingWrite.finalize w1 gp1
          (gp2, .ok w1.written)
      else
        let gp2 :=
          { gp1 with files := { gp1.files with failed := wadd gp1.files.failed 1 } }
        let (_, gp3) := TrackingWrite.finalize w1 gp2
        (gp3, .copyFailed)

/-- Result of a `tokio::fs::metadata` call: `none` when the call fails (the
path does not exist or another I/O error occurs); `modified` is `none` when
`Metadata::modified()` errs. -/
structure FileMeta where
  len : Nat
  modified : Option Nat
deriving DecidableEq, Repr

/-- `cmp_file` from sync.rs: stats dest then src (either failure propagates
as an error), compares lengths, then compares modification times (either
`modified()` failure propagates). -/
def cmpFile (dest src : Option FileMeta) : Except Unit Bool :=
  match dest, src with
  | none, _ => .error ()
  | some _, none => .error ()
  | some dm, some sm =>
      if dm.len ≠ sm.len then .ok false
      else
        match dm.modified, sm.modified with
        | none, _ => .error ()
        | some _, none => .error ()
        | some dmt, some smt => if dmt < smt then .ok false else .ok true

/-- `Result::unwrap_or(false)` applied to the comparator result, as done at
the `cmp_file` call site in `SyncFS::walk`. -/
def cmpMatches (dest src : Option FileMeta) : Bool :=
  match cmpFile dest src with
  | .ok b => b
  | .error _ => false

/-- A node of the source tree as the walker observes it: the outcome of
`metadata(src)`, and for files the metadata the comparator and copier will
see. `dir` carries the outcomes of `create_dir_all` and `read_dir`, the
entries yielded, and whether a trailing `next_entry` error cuts iteration
short. `other` is a path whose metadata is neither file nor directory. -/
inductive FsTree where
  | statErr : FsTree
  | file (len : Nat) (cmpDest cmpSrc : Option FileMeta) (copy : CopyBehavior) : FsTree
  | dir (mkdirOk : Bool) (readDirOk : Bool) (children : List FsTree)
      (trailingErr : Bool) : FsTree
  | other : FsTree
deriving Repr

/-- A message sent on the bounded channel by the walker: a copy job
(`Ok((src, dest))`) or a discovery error (`Err(SyncError)`). -/
inductive WalkMsg where
  | jobMsg (cb : CopyBehavior)
  | errMsg
deriving DecidableEq, Repr

mutual
/-- `SyncFS::walk`: stats the node; files bump `files.total`/`bytes.total`
and are either skipped (comparator matched) or emitted as a copy job;
directories mkdir-p the destination, then recurse over their entries;
anything else falls through both `is_file` and `is_dir` and does nothing. -/
def walk : FsTree → GlobalProgress → GlobalProgress × List WalkMsg
  | .statErr, gp => (gp, [.errMsg])
  | .file len cd cs cb, gp =>
      let gp1 :=
        { gp with
            files := { gp.files with total := wadd gp.files.total 1 }
            bytes := { gp.bytes with total := wadd gp.bytes.total len } }
      if cmpMatches cd cs then
        ({ gp1 with
            files := { gp1.files with skipped := wadd gp1.files.skipped 1 }
            bytes := { gp1.bytes with skipped := wadd gp1.bytes.skipped len } },
         [])
      else (gp1, [.jobMsg cb])
  | .dir mkdirOk readDirOk children trailingErr, gp =>
      if mkdirOk = false then (gp, [.errMsg])
      else if readDirOk = false then (gp, [.errMsg])
      else
        let r := walkList children gp
        (r.1, r.2 ++ if trailingErr then [.errMsg] else [])
  | .other, gp => (gp, [])

/-- The walker's recursion over the entries of a directory, in `read_dir`
order. -/
def walkList : List FsTree → GlobalProgress → GlobalProgress × List WalkMsg
  | [], gp => (gp, [])
  | t :: ts, gp =>
      let r1 := walk t gp
      let r2 := walkList ts r1.1
      (r2.1, r1.2 ++ r2.2)
end

/-- The channel consumer inside `SyncFS::sync`: spawns a copier per job and,
for each discovery error, calls `error_fn` and bumps `files.total` and
`files.failed`. Returns the list of spawned copy jobs. -/
def consume : List WalkMsg → GlobalProgress → GlobalProgress × List CopyBehavior
  | [], gp => (gp, [])
  | .jobMsg cb :: rest, gp =>
      let r := consume rest gp
      (r.1, cb :: r.2)
  | .errMsg :: rest, gp =>
      consume rest
        { gp with
            files := { gp.files with
                        total := wadd gp.files.total 1
                        failed := wadd gp.files.failed 1 } }

/-- Running every spawned copier task (their counter updates commute, so the
sequential order is immaterial to the final `GlobalProgress`). -/
def runJobs : List CopyBehavior → GlobalProgress → GlobalProgress
  | [], gp => gp
  | cb :: rest, gp => runJobs rest (copyFile cb gp).1

/-- The join loop of `SyncFS::sync`: `completed` increments per join;
a progress tick fires when `completed - last_reported >= one_pct`
(wrapping `usize` arithmetic as in a release build), after which the code
assigns `last_reported = js.len()`, i.e. the number of tasks still pending.
Returns the completion indices at which a tick fired. -/
def tickAux (total onePct : Nat) :
    Nat → Nat → Nat → List Nat
  | 0, _, _ => []
  | remaining + 1, completed, lastReported =>
      let c := completed + 1
      if wsub c lastReported ≥ onePct then
        c :: tickAux total onePct remaining c (total - c)
      else
        tickAux total onePct remaining c lastReported

/-- Completion counts at which the join phase of `sync` emits a
non-milestone progress tick, for `total` spawned copiers. -/
def tickCompletions (total : Nat) : List Nat :=
  tickAux total (max 1 (total / 100)) total 0 0

/-- One invocation of the `progress_fn` callback during `sync`. -/
inductive SyncEvent where
  | discoveryComplete
  | tick
  | copyComplete
deriving DecidableEq, Repr

/-- `SyncFS::sync` end to end: walker and consumer run to completion
(`tokio::join!`), then the `DiscoveryComplete` milestone, then the join loop
over the spawned copiers with its throttled ticks, then `CopyComplete`.
Returns the final `GlobalProgress` (the value every counter has reached when
`CopyComplete` is delivered) and the sequence of `progress_fn` invocations. -/
def syncRun (t : FsTree) : GlobalProgress × List SyncEvent :=
  let r1 := walk t GlobalProgress.init
  let r2 := consume r1.2 r1.1
  let gp := runJobs r2.2 r2.1
  (gp,
   .discoveryComplete ::
     ((tickCompletions r2.2.length).map (fun _ => .tick) ++ [.copyComplete]))

/-- Outcome of one `DeviceIoControl(IOCTL_MOUNTMGR_QUERY_POINTS, ...)` call:
`ERROR_MORE_DATA`, any other Win32 error, or success with the decoded
mount-point names (those with the symbolic-link offset set). -/
inductive IoctlOutcome where
  | moreData
  | otherErr
  | success (names : List String)
deriving DecidableEq, Repr

/-- Result of `MountMgr::query_points`. -/
inductive QueryPointsResult where
  | ok (names : List String)
  | win32Err
  | tooManyRetries
deriving DecidableEq, Repr

/-- `MOUNTMGR_MOUNT_POINTS` is 32 bytes and `MAX_PATH` is 260: the initial
output-buffer size in `query_points`. -/
def initialOutBufSize : Nat := 32 + 260

/-- The `while attempt < 5` loop of `query_points`, with the outcome of the
attempt numbered `a` given by `f a` (attempts are numbered from 1). The
fuel argument equals `5 - attempt`, so fuel 0 is exactly the loop guard
failing; the `if attempt >= 5` check after the loop runs on both exits
(guard failure and `break` after a successful ioctl). -/
def queryPointsLoop (f : Nat → IoctlOutcome) :
    Nat → Nat → Nat → QueryPointsResult
  | 0, _, _ => .tooManyRetries
  | fuel + 1, attempt, bufSize =>
      let a := attempt + 1
      match f a with
      | .moreData => queryPointsLoop f fuel a (bufSize * 2)
      | .otherErr => .win32Err
      | .success names => if 5 ≤ a then .tooManyRetries else .ok names

/-- `MountMgr::query_points`, abstracted over the per-attempt ioctl outcome. -/
def queryPoints (f : Nat → IoctlOutcome) : QueryPointsResult :=
  queryPointsLoop f 5 0 initialOutBufSize

/-- State of an `AbortHandleHolder<K>` together with the observable effect
on the tasks its handles point at: `entries` is the `DashMap` content
(key to task id), `aborted` records every task id on which `abort()` has
been called. Keys are modelled as `Nat`. Per tokio's documented semantics,
dropping an `AbortHandle` does NOT abort its task, so only an explicit
`abort()` call extends `aborted`. -/
structure AbortRegistry where
  entries : List (Nat × Nat)
  aborted : List Nat
deriving DecidableEq, Repr

/-- `DashMap`-style lookup. -/
def AbortRegistry.lookup (s : AbortRegistry) (k : Nat) : Option Nat :=
  (s.entries.find? (fun e => e.1 = k)).map (fun e => e.2)

/-- `AbortHandleHolder::insert`: `self.0.insert(key, (handle, on_remove))`.
The `DashMap` replaces any previous entry for the key; the returned old
value is dropped, which calls no `abort()`. -/
def AbortRegistry.insertHandle (s : AbortRegistry) (k tid : Nat) : AbortRegistry :=
  { entries := (k, tid) :: s.entries.filter (fun e => e.1 ≠ k),
    aborted := s.aborted }

/-- `AbortHandleHolder::remove_abort`: removes the entry, calls `abort()` on
its handle (and runs the cleanup). Returns the key if it was present. -/
def AbortRegistry.removeAbort (s : AbortRegistry) (k : Nat) :
    AbortRegistry × Option Nat :=
  match s.lookup k with
  | some tid =>
      ({ entries := s.entries.filter (fun e => e.1 ≠ k),
         aborted := tid :: s.aborted }, some k)
  | none => (s, none)

/-- State of the WMI `Observer` (wmi.rs): only the `registered` flag matters
for the subscription state machine. -/
structure Observer where
  registered : Bool
deriving DecidableEq, Repr

/-- Outcome of the `IWbemServices::CancelAsyncCall` COM call, an input from
the environment. -/
inductive CancelOutcome where
  | ok
  | err
deriving DecidableEq, Repr

/-- `Observer::unregister`: when registered, cancels the async call (an
error propagates as `Err`), then clears the flag; a no-op when already
unregistered. -/
def Observer.unregister (o : Observer) (cancel : CancelOutcome) :
    Except Unit Observer :=
  if o.registered then
    match cancel with
    | .err => .error ()
    | .ok => .ok { registered := false }
  else .ok o

/-- How `Drop for Observer` terminates. -/
inductive DropOutcome where
  | normal (o : Observer)
  | panicked
deriving DecidableEq, Repr

/-- `Drop for Observer`: `self.unregister().expect(...)` — an `Err` from
`unregister` becomes a panic. -/
def Observer.dropRun (o : Observer) (cancel : CancelOutcome) : DropOutcome :=
  match o.unregister cancel with
  | .ok o1 => .normal o1
  | .error _ => .panicked

/-- The failing source tree for the CopyComplete counter invariant: a single
source file of 11 bytes whose destination stat fails (so it is scheduled for
copying) and whose copy attempt hits a write error. -/
def c1Input : FsTree := .file 11 none none ⟨.noFail, 11, [.werr]⟩

/-- The tracking-writer state at a short terminal shutdown: expected size 2,
only 1 byte written, not yet failed or finalized. -/
def wShort : TrackingWrite := ⟨2, 2, 1, false, false, 1, 0⟩

/-- Global counters as they stand when `wShort` finalizes: one file in
progress, one written byte in progress. -/
def gpShort : GlobalProgress := ⟨⟨1, 1, 0, 0, 0⟩, ⟨2, 1, 0, 0, 0⟩⟩

/-- The counters the fail-only reading of the spec predicts for finalizing
`wShort` from `gpShort`: the file marked failed and nothing else. -/
def gpShortFailOnly : GlobalProgress := ⟨⟨1, 0, 0, 0, 1⟩, ⟨2, 1, 0, 0, 2⟩⟩

/-- An abort registry holding one entry, key 7 mapped to task 1. -/
def regOne : AbortRegistry := ⟨[(7, 1)], []⟩

/-- C1: claimed `files.done + files.skipped + files.failed == files.total`
and `files.in_progress == 0` at CopyComplete regardless of how many copies
failed. On a run whose single copy hits a write error, `files.failed` is
incremented both by `TrackingAsyncWrite::register_fail` and by `copy_file`'s
error arm, so at CopyComplete the counters read total 1, done 0, skipped 0,
failed 2, and the claimed equation fails. -/
theorem syncRun_write_error_counters :
    (syncRun c1Input).1.files = ⟨1, 0, 0, 0, 2⟩ ∧
    wadd (wadd (syncRun c1Input).1.files.done (syncRun c1Input).1.files.skipped)
        (syncRun c1Input).1.files.failed ≠ (syncRun c1Input).1.files.total := by
  constructor
  · rfl
  · decide

/-- C2 counterexample: finalizing a writer with `written = 1 ≠ 2 = expected`
does not stop at the fail accounting: the resulting counters differ from the
fail-only prediction, and in particular `files.done` and `bytes.done` are
still incremented. -/
theorem finalize_short_not_fail_only :
    (TrackingWrite.finalize wShort gpShort).2 ≠ gpShortFailOnly ∧
    (TrackingWrite.finalize wShort gpShort).2.files.done = 1 ∧
    (TrackingWrite.finalize wShort gpShort).2.bytes.done = 1 := by
  refine ⟨?_, rfl, rfl⟩
  decide

/-- C2 (amended): on terminal shutdown of a writer that has neither failed
nor finalized, if `written == expected` then exactly
`bytes.done += written`, `bytes.in_progress -= expected`,
`files.in_progress -= 1`, `files.done += 1` are performed; if
`written != expected` the failure accounting (`bytes.failed += expected`,
`files.in_progress -= 1`, `files.failed += 1`) runs first and the same
success accounting is performed as well, so `files.in_progress` drops by 2
and both `files.done` and `files.failed` rise. -/
theorem finalize_terminal_accounting
    (size written fpT fpD lr ft fi fd fs ff bt bi bd bs bf : Nat) :
    (TrackingWrite.finalize ⟨size, fpT, fpD, false, false, written, lr⟩
        ⟨⟨ft, fi, fd, fs, ff⟩, ⟨bt, bi, bd, bs, bf⟩⟩).2 =
      if written = size then
        ⟨⟨ft, wsub fi 1, wadd fd 1, fs, ff⟩,
         ⟨bt, wsub bi size, wadd bd written, bs, bf⟩⟩
      else
        ⟨⟨ft, wsub (wsub fi 1) 1, wadd fd 1, fs, wadd ff 1⟩,
         ⟨bt, wsub bi size, wadd bd written, bs, wadd bf size⟩⟩ := by
  by_cases h : written = size
  · subst h
    rw [if_pos rfl]
    unfold TrackingWrite.finalize
    rw [if_neg (fun hc => hc rfl)]
  · rw [if_neg h]
    unfold TrackingWrite.finalize
    rw [if_pos h]
    rfl

/-- C3: claimed that the provisional done accounting is reverted before
ShortCopy is returned. Copying 5 of an expected 11 bytes does return
`ShortCopy 5 11`, but `revert_progress` at its call site is a no-op (the
writer is not finalized until the subsequent drop), and the drop-time
`finalize` then adds `files.done = 1` and `bytes.done = 5`, which persist;
the second conjunct shows `revert_progress` leaving the counters untouched
at exactly the state it is invoked in. -/
theorem copyFile_short_copy_keeps_done :
    copyFile ⟨.noFail, 11, [.wok 5]⟩ GlobalProgress.init
      = ({ files := ⟨0, 18446744073709551615, 1, 0, 2⟩,
           bytes := ⟨0, 18446744073709551610, 5, 0, 22⟩ }, .shortCopy 5 11) ∧
    (TrackingWrite.revert_progress ⟨11, 11, 5, false, false, 5, 0⟩
        ⟨⟨1, 1, 0, 0, 0⟩, ⟨11, 5, 0, 0, 0⟩⟩).2
      = ⟨⟨1, 1, 0, 0, 0⟩, ⟨11, 5, 0, 0, 0⟩⟩ := by
  constructor
  · rfl
  · rfl

/-- C4 counterexample: inserting key 7 again over an existing entry for
task 1 replaces the mapping but task 1 is not aborted. -/
theorem insertHandle_duplicate_no_abort :
    (regOne.insertHandle 7 2).lookup 7 = some 2 ∧
    1 ∉ (regOne.insertHandle 7 2).aborted := by
  decide

/-- C4 (amended): `AbortHandleHolder::insert` replaces the stored entry for
the key, and the previously stored abort handle is merely dropped: no task
is aborted by the insertion. -/
theorem insertHandle_replaces_without_abort : ∀ (s : AbortRegistry) (k tid : Nat),
    (s.insertHandle k tid).aborted = s.aborted ∧
    (s.insertHandle k tid).lookup k = some tid := by
  intro s k tid
  constructor
  · rfl
  · simp [AbortRegistry.insertHandle, AbortRegistry.lookup, List.find?]

/-- C5: claimed that a successful ioctl always yields the decoded names and
TooManyRetries is returned only when all 5 attempts were used without
success. With "more data" on attempts 1-4 and success on attempt 5, the
post-loop `attempt >= 5` check still returns TooManyRetries, discarding the
successful decode; a success on attempt 4 is returned normally. -/
theorem queryPoints_fifth_attempt_success_lost :
    queryPoints (fun i => if i = 5 then .success ["E:"] else .moreData)
      = .tooManyRetries ∧
    queryPoints (fun i => if i = 4 then .success ["E:"] else .moreData)
      = .ok ["E:"] := by
  constructor
  · rfl
  · rfl

/-- C6: every run of `sync` emits exactly one DiscoveryComplete, then all
join-phase ticks, then exactly one CopyComplete: the event trace is
DiscoveryComplete followed by some number of ticks followed by
CopyComplete, for every source tree, including an empty one. -/
theorem syncRun_milestones_once_in_order (t : FsTree) : ∃ n, (syncRun t).2 =
    SyncEvent.discoveryComplete ::
      (List.replicate n SyncEvent.tick ++ [SyncEvent.copyComplete]) := by
  refine ⟨(tickCompletions (consume (walk t GlobalProgress.init).2
      (walk t GlobalProgress.init).1).2.length).length, ?_⟩
  simp [syncRun, List.map_const']

/-- C7: claimed a tick every `max(1, total/100)` completions. For 3 spawned
copiers the throttle is `max 1 (3/100) = 1`, so ticks should come at every
completion (1, 2, 3); the code assigns `last_reported = js.len()` (tasks
still pending) after each tick, so ticks actually fire at completions 1 and
3 only. -/
theorem tickCompletions_three_skips_second :
    max 1 (3 / 100) = 1 ∧ tickCompletions 3 = [1, 3] := by
  constructor
  · rfl
  · rfl

/-- C8: the comparator returns true exactly when both stats succeed, the
lengths are equal, both modification times are readable, and the
destination's mtime is at least the source's; and the walker emits the copy
job for a file precisely when the comparator (with errors collapsed to
false by `unwrap_or(false)`) did not match. -/
theorem cmpFile_matches_iff_and_walk_emits :
    (∀ dest src, cmpMatches dest src = true ↔
      ∃ dm sm dt st, dest = some dm ∧ src = some sm ∧ dm.len = sm.len ∧
        dm.modified = some dt ∧ sm.modified = some st ∧ st ≤ dt) ∧
    (∀ len cd cs cb gp, (walk (.file len cd cs cb) gp).2 =
      if cmpMatches cd cs then [] else [WalkMsg.jobMsg cb]) := by
  constructor
  · intro dest src
    unfold cmpMatches cmpFile
    rcases dest with _ | dm
    · simp
    rcases src with _ | sm
    · simp
    by_cases hlen : dm.len = sm.len
    · rcases hdm : dm.modified with _ | dt
      · simp [hlen, hdm]
      rcases hsm : sm.modified with _ | st
      · simp [hlen, hdm, hsm]
      by_cases hlt : dt < st <;> simp [hlen, hdm, hsm, hlt] <;> omega
    · simp [hlen]
  · intro len cd cs cb gp
    by_cases hm : cmpMatches cd cs <;> simp [walk, hm]

/-- C9 counterexample: dropping a registered observer whose
`CancelAsyncCall` fails panics (the `Drop` impl uses `expect`), contradicting
the claim that errors during unregistration are logged and never panic. -/
theorem observer_drop_panics_on_cancel_error :
    Observer.dropRun ⟨true⟩ .err = .panicked := rfl

/-- C9 (amended): dropping a registered observer cancels the subscription
when `CancelAsyncCall` succeeds, leaving the Unregistered state; when the
cancellation fails, the drop panics via `expect` rather than logging and
swallowing the error; dropping an unregistered observer is a no-op. -/
theorem observer_drop_cancel_or_panic :
    Observer.dropRun ⟨true⟩ .ok = .normal ⟨false⟩ ∧
    Observer.dropRun ⟨true⟩ .err = .panicked ∧
    (∀ c, Observer.dropRun ⟨false⟩ c = .normal ⟨false⟩) := by
  refine ⟨rfl, rfl, ?_⟩
  intro c
  cases c <;> rfl

/-- C10: a source path whose metadata is neither a regular file nor a
directory falls through the walker's `is_file`/`is_dir` tests: no channel
message is sent and every progress counter is left unchanged. -/
theorem walk_other_no_effect : ∀ gp, walk .other gp = (gp, []) := by
  intro gp
  simp [walk]
